import Mathlib

/-!
Verification of the TruthFi dashboard and its scoring-engine contract.

The only code shipped in the repository is the Next.js dashboard
(`frontend/app/page.tsx`); the scoring backend it talks to is described by
the specification but not shipped.  Definitions below therefore come in two
groups: faithful shallow embeddings of the dashboard functions
(`saveRecentSearch`, `analyzeToken`, `getScoreColor`, the input handler),
and models of the scoring engine whose doc comments start with
`Modelled from the spec:`.
-/

/-- The post source platforms (spec section 3). -/
inductive Source
  | reddit
  | telegram
  | twitter
deriving DecidableEq, Repr

/-- Modelled from the spec: the Author record of section 3 (the backend that
normalizes authors is not in the repository). `account_age_days` is optional
because the spec requires a conservative default for unknown ages. -/
structure Author where
  author_id : String
  source : Source
  account_age_days : Option Nat
  reputation : ℚ
  post_history_count : Nat
deriving DecidableEq, Repr

/-- Modelled from the spec: the normalized Post record of section 3; author
metadata rides along with each post since authors live only for one request. -/
structure Post where
  id : String
  source : Source
  author : Author
  text : String
  created_at : Int
  upvotes : Int
  comment_count : Nat
  token_symbol : String
deriving DecidableEq, Repr

/-- Sentiment labels (spec section 4.4). -/
inductive Sentiment
  | bullish
  | bearish
  | neutral
  | manipulative
deriving DecidableEq, Repr

/-- Risk level enumeration (spec section 3). -/
inductive RiskLevel
  | low
  | medium
  | high
  | critical
deriving DecidableEq, Repr

/-- The coordination verdict record (spec section 3). -/
structure CoordinationVerdict where
  coordinated : Bool
  cluster_count : Nat
  max_cluster_size : Nat
  time_window_seconds : Nat
deriving DecidableEq, Repr

/-- The metrics block of an `AnalysisResult` (spec section 3). -/
structure Metrics where
  content_scam_score : ℚ
  account_credibility : ℚ
  coordination_risk : ℚ
  engagement_quality : ℚ
  sentiment : Sentiment
deriving DecidableEq, Repr

/-- The breakdown block of an `AnalysisResult` (spec section 3). -/
structure Breakdown where
  high_risk_posts : Nat
  suspicious_accounts : Nat
  coordinated : Bool
  low_quality_engagement : Nat
deriving DecidableEq, Repr

/-- The recommendation block of an `AnalysisResult` (spec section 3). -/
structure Recommendation where
  recommendation : String
  message : String
  actions : List String
deriving DecidableEq, Repr

/-- Per-source post counts (spec section 3). -/
structure SourceCounts where
  reddit : Nat
  telegram : Nat
  twitter : Nat
deriving DecidableEq, Repr

/-- The analysis result, mirroring the TypeScript `AnalysisResult` interface
of `frontend/app/page.tsx` and section 3 of the spec. -/
structure AnalysisResult where
  score : ℚ
  risk_level : RiskLevel
  red_flags : List String
  analyzed_posts : Nat
  metrics : Metrics
  breakdown : Breakdown
  recommendation : Recommendation
  sources : SourceCounts
deriving DecidableEq, Repr

/-- The body of a `POST /api/analyze` request, as built by the dashboard. -/
structure RequestBody where
  token_symbol : String
  post_limit : Nat
deriving DecidableEq, Repr

/-- A backend HTTP response as the dashboard observes it: the `ok` flag, the
parsed `detail` field of an error body (`none` when absent), and the parsed
result payload of a success body. -/
structure ApiResponse where
  ok : Bool
  detail : Option String
  data : Option AnalysisResult

/-- The dashboard state relevant to `analyzeToken`: the `tokenSymbol`,
`error`, `result` and `recentSearches` React state cells. -/
structure DashboardState where
  tokenSymbol : String
  error : String
  result : Option AnalysisResult
  recentSearches : List String

/-- JavaScript `a || b` on a possibly-absent string: the fallback is used
when the value is absent or empty (empty strings are falsy in JavaScript). -/
def jsStringOr (o : Option String) (fallback : String) : String :=
  match o with
  | some s => if s = "" then fallback else s
  | none => fallback

/-- JavaScript `String.prototype.toUpperCase` (ASCII range), modelled
character-wise over the string contents. -/
def jsToUpperCase (s : String) : String :=
  ⟨s.data.map Char.toUpper⟩

/-- JavaScript `String.prototype.trim`: strips leading and trailing
whitespace from the string. -/
def jsTrim (s : String) : String :=
  ⟨((s.data.dropWhile Char.isWhitespace).reverse.dropWhile Char.isWhitespace).reverse⟩

/-- `saveRecentSearch` from `frontend/app/page.tsx`:
`[token, ...recentSearches.filter(t => t !== token)].slice(0, 5)`. -/
def saveRecentSearch (token : String) (recentSearches : List String) : List String :=
  (token :: recentSearches.filter (fun t => t != token)).take 5

/-- The token input handler of `TruthFiDashboard`
(`onChange` sets `tokenSymbol` to `e.target.value.toUpperCase()`). -/
def onTokenInput (raw : String) : String :=
  jsToUpperCase raw

/-- `analyzeToken` from `frontend/app/page.tsx`, as a pure step: given the
current state and the backend response the fetch would produce, it returns
the new state and the request body sent (`none` when no fetch is issued).
The guard `!tokenSymbol.trim()` rejects whitespace-only input; otherwise the
body carries `tokenSymbol.toUpperCase()` and the literal `post_limit: 50`;
a non-ok response surfaces `errorData.detail || 'Analysis failed'` and
leaves the result cleared; a success stores the payload and records the
search. -/
def analyzeToken (st : DashboardState) (resp : ApiResponse) :
    DashboardState × Option RequestBody :=
  if jsTrim st.tokenSymbol = "" then
    ({ st with error := "Please enter a token symbol" }, none)
  else
    let body : RequestBody := ⟨jsToUpperCase st.tokenSymbol, 50⟩
    if resp.ok then
      ({ st with
          error := ""
          result := resp.data
          recentSearches := saveRecentSearch (jsToUpperCase st.tokenSymbol) st.recentSearches },
        some body)
    else
      ({ st with error := jsStringOr resp.detail "Analysis failed", result := none },
        some body)

/-- `getScoreColor` from `frontend/app/page.tsx`: the score circle color at
the documented band boundaries 75, 55 and 35. -/
def getScoreColor (score : ℚ) : String :=
  if 75 ≤ score then "#10b981"
  else if 55 ≤ score then "#f59e0b"
  else if 35 ≤ score then "#f97316"
  else "#ef4444"

/-- The color the dashboard associates with each risk band. -/
def colorOfRisk : RiskLevel → String
  | .low => "#10b981"
  | .medium => "#f59e0b"
  | .high => "#f97316"
  | .critical => "#ef4444"

/-- Modelled from the spec: the risk-band classification of section 4.5
(score at least 75 is low risk, at least 55 medium, at least 35 high,
below 35 critical); the scoring backend is not in the repository. -/
def riskLevel (score : ℚ) : RiskLevel :=
  if 75 ≤ score then .low
  else if 55 ≤ score then .medium
  else if 35 ≤ score then .high
  else .critical

/-- Checks whether the first character list starts the second. -/
def leadsWith : List Char → List Char → Bool
  | [], _ => true
  | _ :: _, [] => false
  | a :: pat, b :: hay => a == b && leadsWith pat hay

/-- Checks whether the first character list occurs contiguously in the second. -/
def occursIn (pat : List Char) : List Char → Bool
  | [] => leadsWith pat []
  | b :: hay => leadsWith pat (b :: hay) || occursIn pat hay

/-- Modelled from the spec: the leetspeak de-obfuscation step of
section 4.1 required of the (absent) `ContentPatternDetector`. -/
def leetChar (c : Char) : Char :=
  if c = '0' then 'o'
  else if c = '1' then 'i'
  else if c = '3' then 'e'
  else if c = '4' then 'a'
  else if c = '5' then 's'
  else if c = '7' then 't'
  else if c = '$' then 's'
  else c

/-- Modelled from the spec: case-insensitive, obfuscation-tolerant text
normalization for pattern matching (section 4.1); lowercases, de-leets and
strips characters that are neither alphanumeric nor spaces. -/
def normalizeText (s : String) : List Char :=
  ((s.toLower.data.map leetChar).filter (fun c => c.isAlphanum || c == ' '))

/-- A scam-pattern category of the versioned catalog (spec section 4.1). -/
structure PatternCategory where
  name : String
  phrases : List String
  weight : ℚ

/-- Modelled from the spec: the fixed catalog of scam-pattern categories of
section 4.1 (guaranteed returns, urgency, unsolicited promotion,
impersonation, suspicious links); the detector itself is not shipped. -/
def patternCatalog : List PatternCategory :=
  [ ⟨"guaranteed_returns", ["guaranteed", "cant lose", "risk free", "sure thing"], 35⟩,
    ⟨"urgency_language", ["act now", "buy now", "last chance", "hurry", "before its too late"], 25⟩,
    ⟨"unsolicited_promotion", ["dm me", "join my", "telegram group", "check my profile"], 20⟩,
    ⟨"impersonation", ["official team", "admin here", "verified account"], 25⟩,
    ⟨"suspicious_links", ["bit ly", "free airdrop", "claim now at"], 20⟩ ]

/-- Whether a category matches a post text after normalization. -/
def categoryTriggered (cat : PatternCategory) (text : String) : Bool :=
  cat.phrases.any (fun ph => occursIn (normalizeText ph) (normalizeText text))

/-- Modelled from the spec: the per-post raw scam score of the absent
`ContentPatternDetector` (section 4.1): each matched category contributes its
weight, capped at 100; empty or unmatched text scores 0. -/
def ContentPatternDetector.postScamScore (p : Post) : ℚ :=
  min 100 ((patternCatalog.filter (fun c => categoryTriggered c p.text)).map
    (fun c => c.weight)).sum

/-- Modelled from the spec: the per-post matched flag identifiers of the
absent `ContentPatternDetector` (section 4.1). -/
def ContentPatternDetector.postFlags (p : Post) : List String :=
  (patternCatalog.filter (fun c => categoryTriggered c p.text)).map (fun c => c.name)

/-- Modelled from the spec: the engine configuration surface of section 6
(weights, thresholds, coordination window and burst fraction, minimum
account age), overridable for testability. -/
structure Config where
  wContent : ℚ
  wCred : ℚ
  wCoord : ℚ
  wEng : ℚ
  minAccountAgeDays : Nat
  coordWindowSecs : Nat
  burstNum : Nat
  burstDen : Nat
  highRiskPostThreshold : ℚ
  suspiciousCredThreshold : ℚ
  lowQualityEngThreshold : ℚ

/-- A concrete default configuration used for concrete evaluations. -/
def defaultConfig : Config :=
  ⟨25, 15, 25, 15, 30, 300, 1, 3, 70, 40, 40⟩

/-- Modelled from the spec: the absent `AccountCredibilityScorer` of
section 4.2: a weighted sum of normalized age, reputation and history depth,
floor-clamped for accounts below the minimum age, with a conservative
default when the age is unknown. -/
def AccountCredibilityScorer.score (cfg : Config) (a : Author) : ℚ :=
  match a.account_age_days with
  | none => 30
  | some age =>
    if age < cfg.minAccountAgeDays then 10
    else min 100
      (min 1 ((age : ℚ) / 365) * 40 + min 1 (max 0 a.reputation) * 40 +
        min 1 ((a.post_history_count : ℚ) / 100) * 20)

/-- Modelled from the spec: manipulation-language cues of section 4.4. -/
def manipulativePhrases : List String :=
  ["pump", "100x", "to the moon", "moonshot", "easy money"]

/-- Modelled from the spec: bullish polarity cues of section 4.4. -/
def bullishPhrases : List String :=
  ["bullish", "undervalued", "great project", "solid team"]

/-- Modelled from the spec: bearish polarity cues of section 4.4. -/
def bearishPhrases : List String :=
  ["bearish", "overvalued", "rug", "dump incoming"]

/-- Whether any phrase of the list matches the text after normalization. -/
def textHasAny (phrases : List String) (text : String) : Bool :=
  phrases.any (fun ph => occursIn (normalizeText ph) (normalizeText text))

/-- Modelled from the spec: the absent `SentimentClassifier` of section 4.4;
pump/dump incitement is tagged `manipulative` even though it is positive in
naive polarity. -/
def SentimentClassifier.classify (p : Post) : Sentiment :=
  if textHasAny manipulativePhrases p.text then .manipulative
  else if textHasAny bullishPhrases p.text then .bullish
  else if textHasAny bearishPhrases p.text then .bearish
  else .neutral

/-- Modelled from the spec: per-post engagement quality of section 4.4,
penalizing popularity that is disproportionate to account credibility. -/
def engagementQuality (cfg : Config) (p : Post) : ℚ :=
  let cred := AccountCredibilityScorer.score cfg p.author
  let pop : ℚ := ((max p.upvotes 0 : Int) : ℚ) + (p.comment_count : ℚ)
  if 50 ≤ pop ∧ cred < 40 then 20
  else min 100 ((cred + min 100 pop) / 2)

/-- Modelled from the spec: near-duplicate text similarity of section 4.3;
two posts are template-similar when their normalized texts coincide and are
nonempty. -/
def textSim (p q : Post) : Bool :=
  !(normalizeText p.text).isEmpty && (normalizeText p.text == normalizeText q.text)

/-- Modelled from the spec: the similarity edge of section 4.3, requiring
distinct authors on both endpoints. -/
def simLinked (sim : Post → Post → Bool) (p q : Post) : Bool :=
  (sim p q || sim q p) && (p.author.author_id != q.author.author_id)

/-- One round of similarity-cluster growth inside the post set `s`. -/
def growCluster (sim : Post → Post → Bool) (s : Finset Post) (c : Finset Post) :
    Finset Post :=
  s.filter (fun q => q ∈ c ∨ ∃ p ∈ c, simLinked sim p q = true)

/-- Iterated cluster growth; `s.card` rounds reach the connected component. -/
def iterGrow (sim : Post → Post → Bool) (s : Finset Post) :
    Nat → Finset Post → Finset Post
  | 0, c => c
  | n + 1, c => iterGrow sim s n (growCluster sim s c)

/-- The similarity connected component of `p` inside the post set `s`. -/
def component (sim : Post → Post → Bool) (s : Finset Post) (p : Post) : Finset Post :=
  iterGrow sim s s.card (s.filter (fun q => q = p))

/-- The nontrivial similarity clusters (at least two posts) of the set `s`. -/
def dupComponents (sim : Post → Post → Bool) (s : Finset Post) : Finset (Finset Post) :=
  (s.image (fun p => component sim s p)).filter (fun c => 2 ≤ c.card)

/-- The number of distinct authors among posts of the list falling inside
the time window starting at `t`. -/
def distinctAuthorsInWindow (w : Nat) (t : Int) (posts : List Post) : Nat :=
  (((posts.filter (fun p => decide (t ≤ p.created_at) && decide (p.created_at < t + w))).map
    (fun p => p.author.author_id)).toFinset).card

/-- Modelled from the spec: the temporal-burst sub-signal of section 4.3:
more than the fraction `num / den` of the posts comes from distinct authors
inside some sliding window anchored at a post timestamp. -/
def temporalBurst (w num den : Nat) (posts : List Post) : Bool :=
  posts.any (fun q =>
    decide (num * posts.length < den * distinctAuthorsInWindow w q.created_at posts))

/-- Modelled from the spec: the absent `CoordinationDetector` of section 4.3,
parametrized by the text-similarity predicate; `coordinated` is the logical
OR of the temporal-burst and template-similarity sub-signals, and the
clustering result is reported through `cluster_count`/`max_cluster_size`. -/
def CoordinationDetector.detect (sim : Post → Post → Bool) (cfg : Config)
    (posts : List Post) : CoordinationVerdict :=
  let s := posts.toFinset
  let comps := dupComponents sim s
  let burst := temporalBurst cfg.coordWindowSecs cfg.burstNum cfg.burstDen posts
  { coordinated := burst || decide (0 < comps.card)
    cluster_count := comps.card
    max_cluster_size := comps.sup Finset.card
    time_window_seconds := cfg.coordWindowSecs }

/-- The mean of a list of rationals (0 for the empty list). -/
def mean (xs : List ℚ) : ℚ :=
  if xs.length = 0 then 0 else xs.sum / (xs.length : ℚ)

/-- Modelled from the spec: the coordination-risk metric of section 4.5
(non-coordinated posts get a low baseline; coordinated ones scale with the
largest cluster relative to the post count). -/
def coordinationRisk (v : CoordinationVerdict) (total : Nat) : ℚ :=
  if v.coordinated then
    min 100 (20 + 80 * (v.max_cluster_size : ℚ) / (max 1 total : Nat))
  else 10

/-- The four signal streams plus supporting counts consumed by the
aggregator (spec sections 4.5 and 3). -/
structure Signals where
  content_scam_score : ℚ
  account_credibility : ℚ
  coordination : CoordinationVerdict
  coordination_risk : ℚ
  engagement_quality : ℚ
  sentiment : Sentiment
  triggered_categories : List String
  high_risk_posts : Nat
  suspicious_accounts : Nat
  low_quality_engagement : Nat
  total_posts : Nat

/-- The number of posts of the list from the given source. -/
def postsBySource (posts : List Post) (src : Source) : Nat :=
  (posts.filter (fun p => decide (p.source = src))).length

/-- Modelled from the spec: the request-level sentiment roll-up feeding
`metrics.sentiment` (section 3). -/
def overallSentiment (posts : List Post) : Sentiment :=
  let m := (posts.filter (fun p => decide (SentimentClassifier.classify p = .manipulative))).length
  let bull := (posts.filter (fun p => decide (SentimentClassifier.classify p = .bullish))).length
  let bear := (posts.filter (fun p => decide (SentimentClassifier.classify p = .bearish))).length
  if 0 < m ∧ posts.length ≤ 5 * m then .manipulative
  else if bear < bull then .bullish
  else if bull < bear then .bearish
  else .neutral

/-- Modelled from the spec: the per-request signal computation joining the
four component outputs of section 2 for the aggregator. -/
def computeSignals (cfg : Config) (posts : List Post) : Signals :=
  let verdict := CoordinationDetector.detect textSim cfg posts
  let authors := (posts.map (fun p => p.author)).dedup
  { content_scam_score := mean (posts.map ContentPatternDetector.postScamScore)
    account_credibility :=
      mean (posts.map (fun p => AccountCredibilityScorer.score cfg p.author))
    coordination := verdict
    coordination_risk := coordinationRisk verdict posts.length
    engagement_quality := mean (posts.map (engagementQuality cfg))
    sentiment := overallSentiment posts
    triggered_categories := ((posts.map ContentPatternDetector.postFlags).flatten).dedup
    high_risk_posts :=
      (posts.filter (fun p =>
        decide (cfg.highRiskPostThreshold ≤ ContentPatternDetector.postScamScore p))).length
    suspicious_accounts :=
      (authors.filter (fun a =>
        decide (AccountCredibilityScorer.score cfg a < cfg.suspiciousCredThreshold))).length
    low_quality_engagement :=
      (posts.filter (fun p =>
        decide (engagementQuality cfg p < cfg.lowQualityEngThreshold))).length
    total_posts := posts.length }

/-- A red-flag catalog entry: reporting severity, flag text, and the
threshold-crossing trigger over the aggregated signals. -/
structure RedFlagDef where
  severity : Nat
  text : String
  trigger : Signals → Bool

/-- Modelled from the spec: the red-flag catalog of section 4.5, listed in
stable priority order (highest severity first); flags come from triggered
pattern categories plus coordination and credibility findings that cross
their own reporting thresholds. -/
def redFlagCatalog : List RedFlagDef :=
  [ ⟨7, "Coordinated posting campaign detected", fun s => s.coordination.coordinated⟩,
    ⟨6, "Posts promise guaranteed returns", fun s =>
      s.triggered_categories.contains "guaranteed_returns"⟩,
    ⟨5, "Posts contain impersonation markers", fun s =>
      s.triggered_categories.contains "impersonation"⟩,
    ⟨4, "Posts use artificial urgency language", fun s =>
      s.triggered_categories.contains "urgency_language"⟩,
    ⟨3, "Posts contain unsolicited promotion", fun s =>
      s.triggered_categories.contains "unsolicited_promotion"⟩,
    ⟨2, "Posts contain suspicious external links", fun s =>
      s.triggered_categories.contains "suspicious_links"⟩,
    ⟨1, "Many posting accounts have low credibility", fun s =>
      decide (s.total_posts ≤ 4 * s.suspicious_accounts) && decide (0 < s.suspicious_accounts)⟩ ]

/-- The catalog entries whose trigger fires on the given signals, in
catalog (priority) order. -/
def triggeredFlags (sig : Signals) : List RedFlagDef :=
  redFlagCatalog.filter (fun d => d.trigger sig)

/-- Clamps a rational to the interval from 0 to 100. -/
def clampScore (x : ℚ) : ℚ :=
  min 100 (max 0 x)

/-- Modelled from the spec: the fixed weighted combination of section 4.5;
scam and coordination risk pull the Truth Score down, credibility and
engagement quality pull it up. -/
def ScoreAggregator.aggregateScore (cfg : Config) (sig : Signals) : ℚ :=
  let wsum := cfg.wContent + cfg.wCred + cfg.wCoord + cfg.wEng
  let denom := if wsum = 0 then 1 else wsum
  clampScore
    ((cfg.wContent * (100 - sig.content_scam_score) +
      cfg.wCred * sig.account_credibility +
      cfg.wCoord * (100 - sig.coordination_risk) +
      cfg.wEng * sig.engagement_quality) / denom)

/-- Modelled from the spec: the absent `RecommendationEngine` of
section 4.6: a pure lookup keyed by risk level, refined by the
coordination flag and the suspicious-account count. -/
def RecommendationEngine.recommend (level : RiskLevel) (b : Breakdown) : Recommendation :=
  let base : Recommendation :=
    match level with
    | .low =>
      ⟨"LOOKS ORGANIC", "Discussion appears organic with credible accounts.",
        ["Do your own research before investing"]⟩
    | .medium =>
      ⟨"PROCEED WITH CAUTION", "Some suspicious signals were found in the discussion.",
        ["Verify claims from independent sources"]⟩
    | .high =>
      ⟨"HIGH RISK", "Many posts show scam indicators.",
        ["Avoid acting on these posts", "Check official project channels"]⟩
    | .critical =>
      ⟨"CRITICAL RISK", "Strong signs of manipulation were detected.",
        ["Do not invest based on this discussion", "Report suspicious posts"]⟩
  let acts1 :=
    if b.coordinated then base.actions ++ ["Beware of a coordinated posting campaign"]
    else base.actions
  let acts2 :=
    if 0 < b.suspicious_accounts then acts1 ++ ["Scrutinize the posting accounts before trusting them"]
    else acts1
  { base with actions := acts2 }

/-- Modelled from the spec: the response assembly of section 2 for a
nonempty normalized post set. -/
def analyzeResult (cfg : Config) (posts : List Post) : AnalysisResult :=
  let sig := computeSignals cfg posts
  let score := ScoreAggregator.aggregateScore cfg sig
  let level := riskLevel score
  let br : Breakdown :=
    ⟨sig.high_risk_posts, sig.suspicious_accounts, sig.coordination.coordinated,
      sig.low_quality_engagement⟩
  { score := score
    risk_level := level
    red_flags := (triggeredFlags sig).map (fun d => d.text)
    analyzed_posts := posts.length
    metrics :=
      ⟨sig.content_scam_score, sig.account_credibility, sig.coordination_risk,
        sig.engagement_quality, sig.sentiment⟩
    breakdown := br
    recommendation := RecommendationEngine.recommend level br
    sources :=
      ⟨postsBySource posts .reddit, postsBySource posts .telegram,
        postsBySource posts .twitter⟩ }

/-- Modelled from the spec: one full analysis over an already-fetched
normalized post set; a set with zero posts yields the deterministic
insufficient-data error of section 7 instead of a result. -/
def analyze (cfg : Config) (posts : List Post) : Except String AnalysisResult :=
  if posts.isEmpty then
    Except.error "Insufficient data: no posts could be retrieved"
  else
    Except.ok (analyzeResult cfg posts)

/-- Modelled from the spec: a raw per-source post record before
normalization (section 2, PostNormalizer boundary); required fields may be
missing. -/
structure RawPost where
  id : Option String
  source : Source
  author : Option Author
  text : Option String
  created_at : Option Int
  upvotes : Int
  comment_count : Nat
  token_symbol : String

/-- Modelled from the spec: the absent `PostNormalizer` of section 2:
records missing required fields do not survive normalization. -/
def normalizePost (r : RawPost) : Option Post :=
  match r.id, r.author, r.text, r.created_at with
  | some i, some a, some t, some c =>
    some ⟨i, r.source, a, t, c, r.upvotes, r.comment_count, r.token_symbol⟩
  | _, _, _, _ => none

/-- Modelled from the spec: fetching at most `limit` raw posts (the
per-request fetch cap of section 5) and normalizing the survivors. -/
def fetchNormalize (raw : List RawPost) (limit : Nat) : List Post :=
  (raw.take limit).filterMap normalizePost

/-- Modelled from the spec: one `POST /api/analyze` request over the raw
posts the upstream source returned. -/
def analyzeRequest (cfg : Config) (raw : List RawPost) (limit : Nat) :
    Except String AnalysisResult :=
  analyze cfg (fetchNormalize raw limit)

/-- Modelled from the spec: server-side state visible across requests; the
MVP keeps only a wall-clock-stamped request log and no analysis state
(section 5, stateless per request). -/
structure ServerState where
  requestLog : List (Nat × String)

/-- Modelled from the spec: handling one analyze request on the server:
the log is stamped with the wall clock, and the response is computed from
the normalized post set and configuration alone. -/
def handleRequest (cfg : Config) (clock : Nat) (st : ServerState) (token : String)
    (posts : List Post) : ServerState × Except String AnalysisResult :=
  ({ requestLog := (clock, token) :: st.requestLog }, analyze cfg posts)

/-- `Char.toUpper` unfolded to its defining conditional. -/
theorem charToUpper_eq (c : Char) :
    c.toUpper = if c.toNat ≥ 97 ∧ c.toNat ≤ 122 then Char.ofNat (c.toNat - 32) else c := rfl

/-- Uppercasing a character twice equals uppercasing it once. -/
theorem charToUpper_idem (c : Char) : c.toUpper.toUpper = c.toUpper := by
  rw [charToUpper_eq c]
  by_cases h : c.toNat ≥ 97 ∧ c.toNat ≤ 122
  · rw [if_pos h]
    obtain ⟨h1, h2⟩ := h
    generalize c.toNat = n at h1 h2 ⊢
    interval_cases n <;> decide
  · rw [if_neg h, charToUpper_eq c, if_neg h]

/-- Uppercasing a string twice equals uppercasing it once. -/
theorem jsToUpperCase_idem (s : String) :
    jsToUpperCase (jsToUpperCase s) = jsToUpperCase s := by
  unfold jsToUpperCase
  congr 1
  rw [List.map_map]
  exact List.map_congr_left (fun a _ => charToUpper_idem a)

/-- `List.any` is invariant under permutation of the list. -/
theorem perm_any {α : Type} {l₁ l₂ : List α} (h : l₁.Perm l₂) (f : α → Bool) :
    l₁.any f = l₂.any f := by
  induction h with
  | nil => rfl
  | cons x _ ih => simp [List.any_cons, ih]
  | swap x y l => simp [List.any_cons, Bool.or_left_comm]
  | trans _ _ ih₁ ih₂ => rw [ih₁, ih₂]

/-- The distinct-author window count is invariant under permutation. -/
theorem distinctAuthorsInWindow_perm {l₁ l₂ : List Post} (h : l₁.Perm l₂)
    (w : Nat) (t : Int) :
    distinctAuthorsInWindow w t l₁ = distinctAuthorsInWindow w t l₂ := by
  unfold distinctAuthorsInWindow
  rw [List.toFinset_eq_of_perm _ _ ((h.filter _).map _)]

/-- The temporal-burst signal is invariant under permutation. -/
theorem temporalBurst_perm {l₁ l₂ : List Post} (h : l₁.Perm l₂) (w num den : Nat) :
    temporalBurst w num den l₁ = temporalBurst w num den l₂ := by
  unfold temporalBurst
  have hfun :
      (fun q : Post =>
        decide (num * l₁.length < den * distinctAuthorsInWindow w q.created_at l₁)) =
      (fun q : Post =>
        decide (num * l₂.length < den * distinctAuthorsInWindow w q.created_at l₂)) := by
    funext q
    rw [distinctAuthorsInWindow_perm h, h.length_eq]
  rw [hfun]
  exact perm_any h _

/-- C1: the analysis response is a deterministic pure function of the
normalized post set and the configuration alone: whatever the wall clock
reads and whatever server state earlier requests left behind, handling the
same post set under the same configuration returns a byte-identical
response, so running the analysis twice yields identical results. -/
theorem analysis_deterministic_stateless (cfg : Config) (clock₁ clock₂ : Nat)
    (st₁ st₂ : ServerState) (token₁ token₂ : String) (posts : List Post) :
    (handleRequest cfg clock₁ st₁ token₁ posts).2 =
      (handleRequest cfg clock₂ st₂ token₂ posts).2 := rfl

/-- C2: on the whole score domain from 0 to 100, the four risk bands
partition the scores with no gaps or overlaps at the boundaries 75, 55 and
35 (at least 75 is low, at least 55 and below 75 is medium, at least 35 and
below 55 is high, below 35 is critical), and the dashboard score color of
`getScoreColor` agrees with the band of every score. -/
theorem risk_bands_partition (s : ℚ) (h0 : 0 ≤ s) (h1 : s ≤ 100) :
    (riskLevel s = RiskLevel.low ↔ 75 ≤ s) ∧
    (riskLevel s = RiskLevel.medium ↔ 55 ≤ s ∧ s < 75) ∧
    (riskLevel s = RiskLevel.high ↔ 35 ≤ s ∧ s < 55) ∧
    (riskLevel s = RiskLevel.critical ↔ s < 35) ∧
    getScoreColor s = colorOfRisk (riskLevel s) := by
  unfold riskLevel getScoreColor colorOfRisk
  split_ifs with hA hB hC <;>
    refine ⟨?_, ?_, ?_, ?_, ?_⟩ <;>
    simp only [iff_true, iff_false, reduceCtorEq, not_and, not_lt, true_iff, false_iff] <;>
    first
      | rfl
      | (intros; linarith)
      | (constructor <;> intros <;> first | linarith | rfl)

/-- Witness for C2 at the concrete score 60. -/
theorem risk_bands_partition_witness :
    (riskLevel 60 = RiskLevel.low ↔ 75 ≤ (60 : ℚ)) ∧
    (riskLevel 60 = RiskLevel.medium ↔ 55 ≤ (60 : ℚ) ∧ (60 : ℚ) < 75) ∧
    (riskLevel 60 = RiskLevel.high ↔ 35 ≤ (60 : ℚ) ∧ (60 : ℚ) < 55) ∧
    (riskLevel 60 = RiskLevel.critical ↔ (60 : ℚ) < 35) ∧
    getScoreColor 60 = colorOfRisk (riskLevel 60) :=
  risk_bands_partition 60 (by norm_num) (by norm_num)

/-- C4: the coordination verdict is invariant under permutation of the
input post sequence: for any reordering of the same posts, `detect` returns
the same `coordinated` flag, the same `cluster_count`, and the same
`max_cluster_size`, for every similarity predicate and configuration. -/
theorem coordination_detect_perm_invariant (sim : Post → Post → Bool) (cfg : Config)
    {l₁ l₂ : List Post} (h : l₁.Perm l₂) :
    CoordinationDetector.detect sim cfg l₁ = CoordinationDetector.detect sim cfg l₂ := by
  unfold CoordinationDetector.detect
  rw [List.toFinset_eq_of_perm _ _ h, temporalBurst_perm h]

/-- A concrete established author used in concrete evaluations. -/
def authorA : Author := ⟨"alice", .reddit, some 400, 1/2, 50⟩

/-- A concrete throwaway author used in concrete evaluations. -/
def authorB : Author := ⟨"bob", .reddit, some 2, 0, 1⟩

/-- A concrete organic post used in concrete evaluations. -/
def postA : Post := ⟨"p1", .reddit, authorA, "BTC added by a solid team", 1000, 10, 3, "BTC"⟩

/-- A concrete scammy post used in concrete evaluations. -/
def postB : Post := ⟨"p2", .reddit, authorB, "guaranteed 100x buy now", 1010, 100, 0, "BTC"⟩

/-- Concrete raw posts used in concrete evaluations. -/
def rawW : List RawPost :=
  [ ⟨some "p1", .reddit, some authorA, some "BTC added by a solid team", some 1000, 10, 3, "BTC"⟩,
    ⟨some "p2", .reddit, some authorB, some "guaranteed 100x buy now", some 1010, 100, 0, "BTC"⟩ ]

/-- Witness for C4 at a concrete two-post swap. -/
theorem coordination_detect_perm_invariant_witness :
    CoordinationDetector.detect textSim defaultConfig [postA, postB] =
      CoordinationDetector.detect textSim defaultConfig [postB, postA] :=
  coordination_detect_perm_invariant textSim defaultConfig (List.Perm.swap postB postA [])

/-- C3: whenever an analyze request succeeds, `analyzed_posts` equals the
number of posts that survived the fetch cap and normalization (the count of
posts actually scored), and is at most the requested post limit. -/
theorem analyzed_posts_bounded (cfg : Config) (raw : List RawPost) (limit : Nat)
    (r : AnalysisResult) (h : analyzeRequest cfg raw limit = Except.ok r) :
    r.analyzed_posts = (fetchNormalize raw limit).length ∧ r.analyzed_posts ≤ limit := by
  unfold analyzeRequest analyze at h
  split at h
  · cases h
  · rw [Except.ok.injEq] at h
    subst h
    refine ⟨rfl, ?_⟩
    show (fetchNormalize raw limit).length ≤ limit
    unfold fetchNormalize
    exact le_trans (List.length_filterMap_le _ _) (List.length_take_le _ _)

/-- Witness for C3 at a concrete raw post list and limit 5. -/
theorem analyzed_posts_bounded_witness :
    (analyzeResult defaultConfig (fetchNormalize rawW 5)).analyzed_posts =
        (fetchNormalize rawW 5).length ∧
      (analyzeResult defaultConfig (fetchNormalize rawW 5)).analyzed_posts ≤ 5 :=
  analyzed_posts_bounded defaultConfig rawW 5 _ rfl

/-- C7: a request whose fetch yields zero normalized posts produces the
deterministic insufficient-data error rather than a crash, and a request
with a nonempty post set produces a result, so a user-facing error is
surfaced only when zero posts could be retrieved. -/
theorem empty_posts_insufficient_data (cfg : Config) (raw : List RawPost) (limit : Nat) :
    (fetchNormalize raw limit = [] →
      analyzeRequest cfg raw limit =
        Except.error "Insufficient data: no posts could be retrieved") ∧
    (fetchNormalize raw limit ≠ [] →
      analyzeRequest cfg raw limit =
        Except.ok (analyzeResult cfg (fetchNormalize raw limit))) := by
  constructor
  · intro h
    unfold analyzeRequest analyze
    rw [h]
    rfl
  · intro h
    unfold analyzeRequest analyze
    rw [if_neg (by simp only [List.isEmpty_iff]; exact h)]

/-- Witness for C7 at the empty upstream fetch. -/
theorem empty_posts_insufficient_data_witness :
    analyzeRequest defaultConfig [] 5 =
      Except.error "Insufficient data: no posts could be retrieved" :=
  (empty_posts_insufficient_data defaultConfig [] 5).1 rfl

/-- C5: the red flags of every successful analysis contain no duplicate
flag text, are exactly the triggered entries of the priority-ordered
red-flag catalog (pattern categories plus coordination and credibility
findings that cross their reporting thresholds), and their severities are
in non-increasing order, highest severity first. -/
theorem red_flags_nodup_priority_ordered (cfg : Config) (posts : List Post)
    (r : AnalysisResult) (h : analyze cfg posts = Except.ok r) :
    r.red_flags.Nodup ∧
    r.red_flags = (triggeredFlags (computeSignals cfg posts)).map (fun d => d.text) ∧
    ((triggeredFlags (computeSignals cfg posts)).map (fun d => d.severity)).Pairwise (· ≥ ·) ∧
    (∀ f, f ∈ r.red_flags ↔
      ∃ d ∈ redFlagCatalog, d.trigger (computeSignals cfg posts) = true ∧ d.text = f) := by
  unfold analyze at h
  split at h
  · cases h
  · rw [Except.ok.injEq] at h
    subst h
    have hsub : List.Sublist (triggeredFlags (computeSignals cfg posts)) redFlagCatalog :=
      List.filter_sublist _
    have htexts : (redFlagCatalog.map (fun d => d.text)).Nodup := by decide
    have hsevs : (redFlagCatalog.map (fun d => d.severity)).Pairwise (· ≥ ·) := by decide
    refine ⟨List.Nodup.sublist (hsub.map _) htexts, rfl, List.Pairwise.sublist (hsub.map _) hsevs, ?_⟩
    intro f
    show f ∈ (triggeredFlags (computeSignals cfg posts)).map (fun d => d.text) ↔ _
    unfold triggeredFlags
    simp only [List.mem_map, List.mem_filter]
    constructor
    · rintro ⟨d, ⟨hd, ht⟩, rfl⟩
      exact ⟨d, hd, ht, rfl⟩
    · rintro ⟨d, hd, ht, rfl⟩
      exact ⟨d, ⟨hd, ht⟩, rfl⟩

/-- Witness for C5 at a concrete two-post analysis. -/
theorem red_flags_nodup_priority_ordered_witness :
    (analyzeResult defaultConfig [postA, postB]).red_flags.Nodup ∧
    (analyzeResult defaultConfig [postA, postB]).red_flags =
      (triggeredFlags (computeSignals defaultConfig [postA, postB])).map (fun d => d.text) ∧
    ((triggeredFlags (computeSignals defaultConfig [postA, postB])).map
      (fun d => d.severity)).Pairwise (· ≥ ·) ∧
    (∀ f, f ∈ (analyzeResult defaultConfig [postA, postB]).red_flags ↔
      ∃ d ∈ redFlagCatalog,
        d.trigger (computeSignals defaultConfig [postA, postB]) = true ∧ d.text = f) :=
  red_flags_nodup_priority_ordered defaultConfig [postA, postB] _ rfl

/-- C6: when the entered token symbol is empty or whitespace-only (its trim
is empty), `analyzeToken` surfaces the error message requesting a token
symbol, issues no request to the backend, and attempts no partial
computation (the displayed result is untouched). -/
theorem empty_token_symbol_rejected (st : DashboardState) (resp : ApiResponse)
    (h : jsTrim st.tokenSymbol = "") :
    (analyzeToken st resp).1.error = "Please enter a token symbol" ∧
    (analyzeToken st resp).2 = none ∧
    (analyzeToken st resp).1.result = st.result := by
  unfold analyzeToken
  rw [if_pos h]
  exact ⟨rfl, rfl, rfl⟩

/-- Witness for C6 at a whitespace-only input. -/
theorem empty_token_symbol_rejected_witness :
    (analyzeToken ⟨"   ", "", none, []⟩ ⟨true, none, none⟩).1.error =
        "Please enter a token symbol" ∧
    (analyzeToken ⟨"   ", "", none, []⟩ ⟨true, none, none⟩).2 = none ∧
    (analyzeToken ⟨"   ", "", none, []⟩ ⟨true, none, none⟩).1.result =
      (⟨"   ", "", none, []⟩ : DashboardState).result :=
  empty_token_symbol_rejected ⟨"   ", "", none, []⟩ ⟨true, none, none⟩ (by decide)

/-- Removing the saved token by the JavaScript filter strictly shrinks a
list containing it. -/
theorem length_filter_bne_lt {token : String} {rs : List String} (h : token ∈ rs) :
    (rs.filter (fun t => t != token)).length < rs.length := by
  induction rs with
  | nil => cases h
  | cons a l ih =>
    rcases List.mem_cons.mp h with h1 | h2
    · subst h1
      simp only [List.filter_cons, bne_self_eq_false, Bool.false_eq_true, if_false,
        List.length_cons]
      exact Nat.lt_succ_of_le (List.length_filter_le _ _)
    · by_cases ha : a = token
      · subst ha
        simp only [List.filter_cons, bne_self_eq_false, Bool.false_eq_true, if_false,
          List.length_cons]
        exact Nat.lt_succ_of_le (List.length_filter_le _ _)
      · simp only [List.filter_cons, bne_iff_ne, ne_eq, ha, not_false_eq_true, if_true,
          List.length_cons]
        exact Nat.succ_lt_succ (ih h2)

/-- C9: starting from a duplicate-free recent-searches list,
`saveRecentSearch` yields a list that begins with the saved token, contains
no duplicates, has at most 5 entries, and does not grow when the token was
already present (it only moves to the front). -/
theorem recent_searches_invariant (token : String) (rs : List String) (h : rs.Nodup) :
    (saveRecentSearch token rs).head? = some token ∧
    (saveRecentSearch token rs).Nodup ∧
    (saveRecentSearch token rs).length ≤ 5 ∧
    (token ∈ rs → (saveRecentSearch token rs).length ≤ rs.length) := by
  unfold saveRecentSearch
  have hmem : token ∉ rs.filter (fun t => t != token) := by
    intro hq
    exact absurd (List.mem_filter.mp hq).2 (by simp)
  have hcons : (token :: rs.filter (fun t => t != token)).Nodup :=
    List.nodup_cons.mpr ⟨hmem, h.filter _⟩
  refine ⟨?_, ?_, ?_, ?_⟩
  · rw [show (5 : Nat) = 4 + 1 from rfl, List.take_succ_cons]
    rfl
  · exact List.Nodup.sublist (List.take_sublist _ _) hcons
  · exact List.length_take_le _ _
  · intro hin
    have hlt := length_filter_bne_lt hin
    rw [List.length_take]
    simp only [List.length_cons]
    omega

/-- Witness for C9 at a concrete token already present in the list. -/
theorem recent_searches_invariant_witness :
    (saveRecentSearch "BTC" ["ETH", "BTC", "DOGE"]).head? = some "BTC" ∧
    (saveRecentSearch "BTC" ["ETH", "BTC", "DOGE"]).Nodup ∧
    (saveRecentSearch "BTC" ["ETH", "BTC", "DOGE"]).length ≤ 5 ∧
    ("BTC" ∈ ["ETH", "BTC", "DOGE"] →
      (saveRecentSearch "BTC" ["ETH", "BTC", "DOGE"]).length ≤
        (["ETH", "BTC", "DOGE"] : List String).length) :=
  recent_searches_invariant "BTC" ["ETH", "BTC", "DOGE"] (by decide)

/-- C10: every request body `analyzeToken` sends carries `post_limit = 50`
and, when the token state came from the uppercasing input handler, a
`token_symbol` equal to the uppercase form of the raw user input
(uppercasing is applied at input time and again when building the body). -/
theorem request_body_uppercase_and_limit (raw : String) (st : DashboardState)
    (resp : ApiResponse) (b : RequestBody)
    (hst : st.tokenSymbol = onTokenInput raw)
    (hb : (analyzeToken st resp).2 = some b) :
    b.token_symbol = jsToUpperCase raw ∧ b.post_limit = 50 := by
  unfold analyzeToken at hb
  split at hb
  · cases hb
  · split at hb <;>
    · rw [Option.some.injEq] at hb
      subst hb
      refine ⟨?_, rfl⟩
      show jsToUpperCase st.tokenSymbol = jsToUpperCase raw
      rw [hst]
      exact jsToUpperCase_idem raw

/-- Witness for C10 at the raw input "btc". -/
theorem request_body_uppercase_and_limit_witness :
    (⟨"BTC", 50⟩ : RequestBody).token_symbol = jsToUpperCase "btc" ∧
    (⟨"BTC", 50⟩ : RequestBody).post_limit = 50 :=
  request_body_uppercase_and_limit "btc" ⟨"BTC", "", none, []⟩ ⟨true, none, none⟩
    ⟨"BTC", 50⟩ (by decide) (by decide)

/-- Concrete dashboard state used in the C8 counterexample. -/
def stC8 : DashboardState := ⟨"BTC", "", none, []⟩

/-- Concrete non-ok backend response whose body carries a present but empty
detail string. -/
def respC8 : ApiResponse := ⟨false, some "", none⟩

/-- C8 counterexample: for a non-2xx response whose body carries the detail
string `""`, the dashboard does not surface that detail string: it displays
the fallback text instead, so the displayed error differs from the carried
detail. -/
theorem error_detail_surfaced_cex :
    respC8.ok = false ∧
    respC8.detail = some "" ∧
    (analyzeToken stC8 respC8).1.error = "Analysis failed" ∧
    (analyzeToken stC8 respC8).1.error ≠ "" := by
  refine ⟨rfl, rfl, ?_, ?_⟩ <;> decide

/-- C8 (amended): for every non-2xx response, the dashboard leaves the
displayed result empty and surfaces exactly the carried detail string when
that string is non-empty, falling back to the text `Analysis failed` when
the detail is absent or empty (JavaScript `||` treats the empty string as
falsy). -/
theorem error_detail_surfaced (st : DashboardState) (resp : ApiResponse)
    (h1 : ¬ jsTrim st.tokenSymbol = "") (h2 : resp.ok = false) :
    (analyzeToken st resp).1.error = jsStringOr resp.detail "Analysis failed" ∧
    (analyzeToken st resp).1.result = none ∧
    (∀ d, resp.detail = some d → d ≠ "" → (analyzeToken st resp).1.error = d) ∧
    ((resp.detail = none ∨ resp.detail = some "") →
      (analyzeToken st resp).1.error = "Analysis failed") := by
  unfold analyzeToken
  rw [if_neg h1, if_neg (by rw [h2]; exact Bool.false_ne_true)]
  refine ⟨rfl, rfl, ?_, ?_⟩
  · intro d hd hne
    show jsStringOr resp.detail "Analysis failed" = d
    rw [hd]
    simp only [jsStringOr, if_neg hne]
  · rintro (hd | hd) <;>
    · show jsStringOr resp.detail "Analysis failed" = "Analysis failed"
      rw [hd]
      rfl

/-- Witness for the amended C8 at a concrete non-ok response carrying a
non-empty detail string. -/
theorem error_detail_surfaced_witness :
    (analyzeToken ⟨"BTC", "", none, []⟩ ⟨false, some "Token not found", none⟩).1.error =
        jsStringOr (some "Token not found") "Analysis failed" ∧
    (analyzeToken ⟨"BTC", "", none, []⟩ ⟨false, some "Token not found", none⟩).1.result = none ∧
    (∀ d, (some "Token not found" : Option String) = some d → d ≠ "" →
      (analyzeToken ⟨"BTC", "", none, []⟩ ⟨false, some "Token not found", none⟩).1.error = d) ∧
    (((some "Token not found" : Option String) = none ∨
        (some "Token not found" : Option String) = some "") →
      (analyzeToken ⟨"BTC", "", none, []⟩ ⟨false, some "Token not found", none⟩).1.error =
        "Analysis failed") :=
  error_detail_surfaced ⟨"BTC", "", none, []⟩ ⟨false, some "Token not found", none⟩
    (by decide) rfl
